import Mathlib

/-
Shallow embedding of the SerumMarket client (src/unnamed/part_000).

The repository wraps the @project-serum/serum SDK: it locates a market by
asset pair, loads order books, derives bid/ask/mid prices, and builds an
order-placement transaction.  The external SDK (Market.load, loadBids,
loadAsks, getL2, makePlaceOrderTransaction), the RPC node and base64
decoding are modelled as an explicit environment of functions (SdkEnv);
asynchronous calls that may reject are modelled with Except JsError.
JavaScript numbers are modelled as rationals plus NaN, and JavaScript
null/undefined as Option; coercion of null to 0 in arithmetic is explicit.
-/

/-- A JavaScript number: a finite value (modelled as a rational) or NaN.
Infinities are not modelled; the source never produces them on the paths
embedded here (the only division is by the literal 2). -/
inductive JSNumber where
  | nan : JSNumber
  | val (q : ℚ) : JSNumber
deriving DecidableEq

/-- JavaScript subtraction on numbers; NaN is absorbing. -/
def jsSub : JSNumber → JSNumber → JSNumber
  | JSNumber.val a, JSNumber.val b => JSNumber.val (a - b)
  | _, _ => JSNumber.nan

/-- JavaScript addition on numbers; NaN is absorbing. -/
def jsAdd : JSNumber → JSNumber → JSNumber
  | JSNumber.val a, JSNumber.val b => JSNumber.val (a + b)
  | _, _ => JSNumber.nan

/-- JavaScript division on numbers; NaN is absorbing.  Division by zero
would give a non-finite value, collapsed to nan here; the source only
divides by the literal 2, so this case is never exercised. -/
def jsDiv : JSNumber → JSNumber → JSNumber
  | JSNumber.val a, JSNumber.val b =>
      if b = 0 then JSNumber.nan else JSNumber.val (a / b)
  | _, _ => JSNumber.nan

/-- JavaScript ToNumber applied to a possibly-null value: null coerces
to 0 in arithmetic (`null - null` is 0, not NaN). -/
def nullToNumber : Option JSNumber → JSNumber
  | none => JSNumber.val 0
  | some x => x

/-- A JavaScript runtime error (Error / TypeError), identified by its
message. -/
structure JsError where
  message : String
deriving DecidableEq

/-- The TypeError raised by a member access or index on undefined/null. -/
def typeError : JsError := { message := "TypeError" }

/-- Member access on a possibly-undefined/null value: accessing a property
of undefined or null throws a TypeError. -/
def jsMember {α : Type} : Option α → Except JsError α
  | none => Except.error typeError
  | some x => Except.ok x

/-- A Solana public key, identified by its base58 string (PublicKey from
@solana/web3.js; only identity and toBase58 are used). -/
structure PublicKey where
  b58 : String
deriving DecidableEq

def PublicKey.toBase58 (p : PublicKey) : String := p.b58

/-- A connection handle to a ledger node.  `id` identifies the handle;
`commitment` is the commitment level the source reads off the handle. -/
structure Connection where
  id : Nat
  commitment : Option String
deriving DecidableEq

/-- A Solana Account keypair (opaque: only forwarded, never inspected). -/
structure Account where
  id : Nat
deriving DecidableEq

/-- The external SDK market object returned by Market.load (opaque). -/
structure MarketHandle where
  id : Nat
deriving DecidableEq

/-- The external SDK order-book object returned by loadBids/loadAsks
(opaque: only getL2 is applied to it). -/
structure OrderbookHandle where
  id : Nat
deriving DecidableEq

/-- The value returned by the external transaction builder
(transaction plus signers; opaque, returned unchanged). -/
structure TxResult where
  id : Nat
deriving DecidableEq

/-- One memcmp filter of a getProgramAccounts request. -/
structure MemcmpFilter where
  offset : Nat
  bytes : String
deriving DecidableEq

/-- The configuration object of the getProgramAccounts RPC request. -/
structure GetProgramAccountsConfig where
  commitment : Option String
  filters : List MemcmpFilter
  encoding : String
deriving DecidableEq

/-- The error object of an RPC response. -/
structure RpcError where
  message : String
deriving DecidableEq

/-- The account blob inside an RPC response entry.  `data0` is the first
element of the [content, encoding] data pair, a base64 payload. -/
structure RpcAccount where
  data0 : String
  executable : Bool
  owner : String
  lamports : Nat
deriving DecidableEq

/-- One entry of a getProgramAccounts response. -/
structure RpcKeyedAccount where
  pubkey : String
  account : RpcAccount
deriving DecidableEq

/-- A raw RPC response: either an error object or a result list. -/
structure RpcResponse where
  error : Option RpcError
  result : List RpcKeyedAccount
deriving DecidableEq

/-- Decoded account info as produced by getMarketByAssetKeys. -/
structure AccountInfo where
  data : List Nat
  executable : Bool
  owner : PublicKey
  lamports : Nat
deriving DecidableEq

/-- A (publicKey, accountInfo) pair returned by getMarketByAssetKeys. -/
structure MarketAccount where
  publicKey : PublicKey
  accountInfo : AccountInfo
deriving DecidableEq

/-- The PlaceOrderOptions bundle (`opts`) of createPlaceOrderTx; every
field may be undefined. -/
structure PlaceOrderOpts where
  clientId : Option Nat
  openOrdersAddressKey : Option PublicKey
  openOrdersAccount : Option Account
  feeDiscountPubkey : Option PublicKey
deriving DecidableEq

/-- The empty options object used as the default for `opts = {}`:
destructuring it yields undefined for every field. -/
def emptyOpts : PlaceOrderOpts :=
  { clientId := none, openOrdersAddressKey := none,
    openOrdersAccount := none, feeDiscountPubkey := none }

/-- The argument object the source passes to
market.makePlaceOrderTransaction (second argument; the connection is
passed separately as the first). -/
structure PlaceOrderParams where
  owner : PublicKey
  payer : PublicKey
  side : String
  price : JSNumber
  size : JSNumber
  orderType : Option String
  clientId : Option Nat
  openOrdersAddressKey : Option PublicKey
  openOrdersAccount : Option Account
  feeDiscountPubkey : Option PublicKey
deriving DecidableEq

/-- The destructured argument object of createPlaceOrderTx.  `connection`
and `opts` are optional: none models an omitted (undefined) field. -/
structure CreatePlaceOrderArgs where
  connection : Option Connection
  owner : PublicKey
  payer : PublicKey
  side : String
  price : JSNumber
  size : JSNumber
  orderType : Option String
  opts : Option PlaceOrderOpts
deriving DecidableEq

/-- The environment of external calls the wrapper delegates to: the serum
SDK, the RPC node and base64 decoding.  loadBids/loadAsks return an
optional handle because getOrderbook guards against a falsy book. -/
structure SdkEnv where
  layoutOffsetOf : PublicKey → String → Nat
  rpcRequest : Connection → String → String → GetProgramAccountsConfig → RpcResponse
  base64Decode : String → List Nat
  loadMarket : Connection → PublicKey → PublicKey → Except JsError MarketHandle
  loadBids : MarketHandle → Connection → Except JsError (Option OrderbookHandle)
  loadAsks : MarketHandle → Connection → Except JsError (Option OrderbookHandle)
  getL2 : OrderbookHandle → Nat → Except JsError (List (JSNumber × JSNumber))
  makePlaceOrderTransaction : MarketHandle → Option Connection → PlaceOrderParams → TxResult

/-- The SerumMarket instance: identifying keys set by the constructor and
the market handle set by initMarket (none until then). -/
structure SerumMarket where
  connection : Connection
  marketAddress : PublicKey
  dexProgramKey : PublicKey
  market : Option MarketHandle
deriving DecidableEq

/-- The constructor: stores the three identifiers, performs no I/O;
this.market is left undefined. -/
def SerumMarket.new (connection : Connection)
    (marketAddress dexProgramKey : PublicKey) : SerumMarket :=
  { connection := connection, marketAddress := marketAddress,
    dexProgramKey := dexProgramKey, market := none }

/-- getMarket: delegates to Market.load with the stored identifiers. -/
def SerumMarket.getMarket (env : SdkEnv) (m : SerumMarket) :
    Except JsError MarketHandle :=
  env.loadMarket m.connection m.marketAddress m.dexProgramKey

/-- initMarket: this.market = await this.getMarket().  State-passing
models the field write. -/
def SerumMarket.initMarket (env : SdkEnv) (m : SerumMarket) :
    Except JsError SerumMarket := do
  let mk ← m.getMarket env
  pure { m with market := some mk }

/-- getMarketByAssetKeys: builds the two memcmp filters from the layout
offsets, issues the raw getProgramAccounts request, throws the node error
message verbatim if the response carries an error, and otherwise decodes
each entry. -/
def SerumMarket.getMarketByAssetKeys (env : SdkEnv) (connection : Connection)
    (baseMintAddress quoteMintAddress dexProgramId : PublicKey) :
    Except JsError (List MarketAccount) :=
  let filters : List MemcmpFilter :=
    [ { offset := env.layoutOffsetOf dexProgramId "baseMint",
        bytes := baseMintAddress.toBase58 },
      { offset := env.layoutOffsetOf dexProgramId "quoteMint",
        bytes := quoteMintAddress.toBase58 } ]
  let resp := env.rpcRequest connection "getProgramAccounts"
      dexProgramId.toBase58
      { commitment := connection.commitment, filters := filters,
        encoding := "base64" }
  match resp.error with
  | some e => Except.error { message := e.message }
  | none =>
      Except.ok (resp.result.map fun r =>
        { publicKey := { b58 := r.pubkey },
          accountInfo :=
            { data := env.base64Decode r.account.data0,
              executable := r.account.executable,
              owner := { b58 := r.account.owner },
              lamports := r.account.lamports } })

/-- findByAssets: looks up markets by asset keys; if the list is nonempty
wraps the first match and initializes it, otherwise returns null. -/
def SerumMarket.findByAssets (env : SdkEnv) (connection : Connection)
    (baseMintAddress quoteMintAddress dexProgramKey : PublicKey) :
    Except JsError (Option SerumMarket) := do
  let availableMarkets ← SerumMarket.getMarketByAssetKeys env connection
      baseMintAddress quoteMintAddress dexProgramKey
  match availableMarkets with
  | [] => pure none
  | first :: _ => do
      let market := SerumMarket.new connection first.publicKey dexProgramKey
      let market ← market.initMarket env
      pure (some market)

/-- getBidAskSpread: returns nulls when the market is unresolved;
otherwise loads both books sequentially and extracts getL2(1)[0] of each.
Indexing the first level out of an empty level list yields undefined, and
the subsequent [0] access on undefined throws a TypeError. -/
def SerumMarket.getBidAskSpread (env : SdkEnv) (m : SerumMarket) :
    Except JsError (Option JSNumber × Option JSNumber) :=
  match m.market with
  | none => Except.ok (none, none)
  | some mkt => do
      let bidOrderbook ← env.loadBids mkt m.connection
      let askOrderbook ← env.loadAsks mkt m.connection
      let bidOb ← jsMember bidOrderbook
      let highestbid := (← env.getL2 bidOb 1).head?
      let askOb ← jsMember askOrderbook
      let lowestAsk := (← env.getL2 askOb 1).head?
      let hb ← jsMember highestbid
      let la ← jsMember lowestAsk
      Except.ok (some hb.1, some la.1)

/-- One aggregated (price, size) level of the order-book snapshot. -/
structure BookLevel where
  price : JSNumber
  size : JSNumber
deriving DecidableEq

/-- The result of getOrderbook. -/
structure OrderbookSnapshot where
  bids : List BookLevel
  asks : List BookLevel
deriving DecidableEq

/-- One side of the snapshot: the empty list for a falsy book, otherwise
the getL2 levels at the requested depth reshaped to (price, size)
records.  This is the ternary applied to each side in the source. -/
def sideLevels (env : SdkEnv) :
    Option OrderbookHandle → Nat → Except JsError (List BookLevel)
  | none, _ => Except.ok []
  | some b, depth => do
      let l2 ← env.getL2 b depth
      Except.ok (l2.map fun level => { price := level.1, size := level.2 : BookLevel })

/-- The body of getOrderbook's try block: member access on this.market
(throws when uninitialized), both book loads (joined; a rejection of
either rejects the join), and up to depth levels per non-falsy side. -/
def SerumMarket.getOrderbookUncaught (env : SdkEnv) (m : SerumMarket)
    (depth : Nat) : Except JsError OrderbookSnapshot := do
  let mkt ← jsMember m.market
  let bidOrderbook ← env.loadBids mkt m.connection
  let askOrderbook ← env.loadAsks mkt m.connection
  let bids ← sideLevels env bidOrderbook depth
  let asks ← sideLevels env askOrderbook depth
  Except.ok { bids := bids, asks := asks }

/-- getOrderbook: the try/catch around the body; any failure is logged
and masked as an empty book.  The source defaults depth to 20 at the
call boundary; depth is passed explicitly here. -/
def SerumMarket.getOrderbook (env : SdkEnv) (m : SerumMarket)
    (depth : Nat) : OrderbookSnapshot :=
  match m.getOrderbookUncaught env depth with
  | Except.ok r => r
  | Except.error _ => { bids := [], asks := [] }

/-- getPrice: (ask - bid) / 2 + bid on the spread, with JavaScript null
coercion at each arithmetic operator. -/
def SerumMarket.getPrice (env : SdkEnv) (m : SerumMarket) :
    Except JsError JSNumber := do
  let spread ← m.getBidAskSpread env
  pure (jsAdd (jsDiv (jsSub (nullToNumber spread.2) (nullToNumber spread.1))
                     (JSNumber.val 2))
              (nullToNumber spread.1))

/-- createPlaceOrderTx: destructures opts (defaulting to the empty object
when omitted) and delegates to this.market.makePlaceOrderTransaction with
the argument object's connection and the ten order fields.  The member
access on this.market throws when uninitialized. -/
def SerumMarket.createPlaceOrderTx (env : SdkEnv) (m : SerumMarket)
    (args : CreatePlaceOrderArgs) : Except JsError TxResult := do
  let o := args.opts.getD emptyOpts
  let mkt ← jsMember m.market
  Except.ok (env.makePlaceOrderTransaction mkt args.connection
    { owner := args.owner, payer := args.payer, side := args.side,
      price := args.price, size := args.size, orderType := args.orderType,
      clientId := o.clientId,
      openOrdersAddressKey := o.openOrdersAddressKey,
      openOrdersAccount := o.openOrdersAccount,
      feeDiscountPubkey := o.feeDiscountPubkey })

/-!
Concrete fixtures shared by witnesses and counterexamples.
-/

def connA : Connection := { id := 0, commitment := some "recent" }

def baseKey : PublicKey := { b58 := "BASE" }

def quoteKey : PublicKey := { b58 := "QUOTE" }

def progKey : PublicKey := { b58 := "PROG" }

def mktAddr : PublicKey := { b58 := "MKT" }

def mkt0 : MarketHandle := { id := 7 }

/-- A benign environment: the RPC node returns no matches, loads succeed,
and every book is empty. -/
def baseEnv : SdkEnv :=
  { layoutOffsetOf := fun _ _ => 0,
    rpcRequest := fun _ _ _ _ => { error := none, result := [] },
    base64Decode := fun _ => [],
    loadMarket := fun _ _ _ => Except.ok { id := 7 },
    loadBids := fun _ _ => Except.ok (some { id := 1 }),
    loadAsks := fun _ _ => Except.ok (some { id := 2 }),
    getL2 := fun _ _ => Except.ok [],
    makePlaceOrderTransaction := fun _ _ _ => { id := 0 } }

/-- A freshly constructed client: initMarket has not run. -/
def clientRaw : SerumMarket := SerumMarket.new connA mktAddr progKey

/-- The same client after a successful initMarket. -/
def clientInit : SerumMarket := { clientRaw with market := some mkt0 }

/-- An environment whose bid-side load rejects. -/
def envBidsThrow : SdkEnv :=
  { baseEnv with loadBids := fun _ _ => Except.error { message := "boom" } }

/-- An environment whose RPC node reports the error message "x". -/
def envRpcError : SdkEnv :=
  { baseEnv with
    rpcRequest := fun _ _ _ _ => { error := some { message := "x" }, result := [] } }

/-- An environment with one bid level at price 10 and one ask level at
price 12 (the bid book is handle 1, the ask book handle 2). -/
def envSpread : SdkEnv :=
  { baseEnv with
    getL2 := fun ob _ =>
      if ob.id = 1 then Except.ok [(JSNumber.val 10, JSNumber.val 1)]
      else Except.ok [(JSNumber.val 12, JSNumber.val 1)] }

/-- An environment whose RPC node returns exactly one matching account. -/
def envOneMatch : SdkEnv :=
  { baseEnv with
    rpcRequest := fun _ _ _ _ =>
      { error := none,
        result := [ { pubkey := "FOUND",
                      account := { data0 := "AAAA", executable := false,
                                   owner := "OWN", lamports := 5 } } ] } }

/-- A fully populated createPlaceOrderTx argument object. -/
def argsFull : CreatePlaceOrderArgs :=
  { connection := some connA, owner := baseKey, payer := quoteKey,
    side := "buy", price := JSNumber.val 1, size := JSNumber.val 2,
    orderType := some "limit",
    opts := some { clientId := some 9, openOrdersAddressKey := some progKey,
                   openOrdersAccount := some { id := 3 },
                   feeDiscountPubkey := some mktAddr } }

/-- A createPlaceOrderTx argument object with the connection field and
the options bundle omitted. -/
def argsNoOpts : CreatePlaceOrderArgs :=
  { connection := none, owner := baseKey, payer := quoteKey, side := "sell",
    price := JSNumber.val 3, size := JSNumber.val 4, orderType := none,
    opts := none }

/-- Reduction of an Except bind on a success value. -/
theorem exceptBind_ok {ε α β : Type} (a : α) (f : α → Except ε β) :
    (Except.ok a : Except ε α) >>= f = f a := rfl

/-- Reduction of an Except bind on a propagated error. -/
theorem exceptBind_error {ε α β : Type} (e : ε) (f : α → Except ε β) :
    (Except.error e : Except ε α) >>= f = Except.error e := rfl

/-- C1: for every environment, client, depth and thrown error, if the body
of getOrderbook (member access, order-book load or level extraction)
throws — whatever the error — getOrderbook does not propagate the failure
and returns exactly the empty book. -/
theorem getOrderbook_masks_failures (env : SdkEnv) (m : SerumMarket)
    (depth : Nat) (e : JsError)
    (h : m.getOrderbookUncaught env depth = Except.error e) :
    m.getOrderbook env depth = { bids := [], asks := [] } := by
  unfold SerumMarket.getOrderbook
  rw [h]

/-- Witness for C1: with a rejecting bid-side load on an initialized
client, the body throws and getOrderbook returns the empty book. -/
theorem getOrderbook_masks_failures_witness :
    SerumMarket.getOrderbookUncaught envBidsThrow clientInit 20 =
      Except.error { message := "boom" } ∧
    SerumMarket.getOrderbook envBidsThrow clientInit 20 =
      { bids := [], asks := [] } :=
  ⟨rfl, getOrderbook_masks_failures envBidsThrow clientInit 20
    { message := "boom" } rfl⟩

/-- C5: on a client whose market handle is not yet resolved (initMarket
has not completed), getBidAskSpread returns null bid and null ask and
getOrderbook returns the empty book, for every depth; neither query
fails. -/
theorem uninitialized_queries_sentinel (env : SdkEnv) (m : SerumMarket)
    (depth : Nat) (h : m.market = none) :
    m.getBidAskSpread env = Except.ok (none, none) ∧
    m.getOrderbook env depth = { bids := [], asks := [] } := by
  constructor
  · unfold SerumMarket.getBidAskSpread
    rw [h]
  · unfold SerumMarket.getOrderbook SerumMarket.getOrderbookUncaught
    rw [h]
    rfl

/-- Witness for C5: a freshly constructed client in the benign
environment. -/
theorem uninitialized_queries_sentinel_witness :
    SerumMarket.getBidAskSpread baseEnv clientRaw = Except.ok (none, none) ∧
    SerumMarket.getOrderbook baseEnv clientRaw 20 = { bids := [], asks := [] } :=
  uninitialized_queries_sentinel baseEnv clientRaw 20 rfl

/-- C6: when the getProgramAccounts response carries an error object,
getMarketByAssetKeys throws an error whose message is exactly the
node-provided message, verbatim. -/
theorem getMarketByAssetKeys_error_verbatim (env : SdkEnv) (c : Connection)
    (b q d : PublicKey) (msg : String) (rs : List RpcKeyedAccount)
    (h : env.rpcRequest c "getProgramAccounts" d.toBase58
          { commitment := c.commitment,
            filters :=
              [ { offset := env.layoutOffsetOf d "baseMint",
                  bytes := b.toBase58 },
                { offset := env.layoutOffsetOf d "quoteMint",
                  bytes := q.toBase58 } ],
            encoding := "base64" } =
         { error := some { message := msg }, result := rs }) :
    SerumMarket.getMarketByAssetKeys env c b q d =
      Except.error { message := msg } := by
  simp only [SerumMarket.getMarketByAssetKeys]
  rw [h]

/-- Witness for C6: a node that answers with error message "x" makes
getMarketByAssetKeys raise with message "x". -/
theorem getMarketByAssetKeys_error_verbatim_witness :
    SerumMarket.getMarketByAssetKeys envRpcError connA baseKey quoteKey
      progKey = Except.error { message := "x" } :=
  getMarketByAssetKeys_error_verbatim envRpcError connA baseKey quoteKey
    progKey "x" [] rfl

/-- C2 counterexample: an initialized client over an environment whose
books are empty.  getL2(1) returns no levels, so getL2(1)[0] is undefined
and the [0] access on it throws: getBidAskSpread fails instead of
returning a null side. -/
theorem getBidAskSpread_emptyBook_counterexample :
    SerumMarket.getBidAskSpread baseEnv clientInit = Except.error typeError ∧
    SerumMarket.getBidAskSpread baseEnv clientInit ≠
      Except.ok (none, none) :=
  ⟨rfl, fun h => Except.noConfusion h⟩

/-- C2 amended: on an initialized client whose bid side or ask side has
no levels at depth 1, getBidAskSpread throws a TypeError (the [0] access
on an undefined top level); it does not return a null side.  Null sides
are produced only by the unresolved-market sentinel. -/
theorem getBidAskSpread_emptyBook_throws (env : SdkEnv) (m : SerumMarket)
    (mkt : MarketHandle) (bob aob : OrderbookHandle)
    (bl al : List (JSNumber × JSNumber))
    (hm : m.market = some mkt)
    (hb : env.loadBids mkt m.connection = Except.ok (some bob))
    (ha : env.loadAsks mkt m.connection = Except.ok (some aob))
    (hbl : env.getL2 bob 1 = Except.ok bl)
    (hal : env.getL2 aob 1 = Except.ok al)
    (hempty : bl = [] ∨ al = []) :
    m.getBidAskSpread env = Except.error typeError := by
  unfold SerumMarket.getBidAskSpread
  rw [hm]
  rcases hempty with h | h
  · subst h
    simp only [hb, ha, hbl, hal, jsMember, exceptBind_ok, exceptBind_error,
      List.head?]
  · subst h
    cases bl with
    | nil =>
        simp only [hb, ha, hbl, hal, jsMember, exceptBind_ok,
          exceptBind_error, List.head?]
    | cons hd tl =>
        simp only [hb, ha, hbl, hal, jsMember, exceptBind_ok,
          exceptBind_error, List.head?]

/-- Witness for the amended C2: the benign environment has empty books,
and the initialized client's spread query throws. -/
theorem getBidAskSpread_emptyBook_throws_witness :
    SerumMarket.getBidAskSpread baseEnv clientInit =
      Except.error typeError :=
  getBidAskSpread_emptyBook_throws baseEnv clientInit mkt0
    { id := 1 } { id := 2 } [] [] rfl rfl rfl rfl rfl (Or.inl rfl)

/-- C3 counterexample: on an uninitialized client the spread is
(null, null), and getPrice evaluates (null - null) / 2 + null with null
coerced to 0 at each operator: it returns the number 0, not NaN. -/
theorem getPrice_nullSpread_counterexample :
    SerumMarket.getPrice baseEnv clientRaw = Except.ok (JSNumber.val 0) ∧
    JSNumber.val 0 ≠ JSNumber.nan := by
  constructor
  · show Except.ok (jsAdd (jsDiv (jsSub (JSNumber.val 0) (JSNumber.val 0))
        (JSNumber.val 2)) (JSNumber.val 0)) = _
    norm_num [jsSub, jsDiv, jsAdd]
  · exact fun h => JSNumber.noConfusion h

/-- C3 amended: whenever getBidAskSpread yields a null bid and a null
ask (as on an uninitialized client), getPrice returns the number 0 —
JavaScript coerces null to 0 in arithmetic — rather than NaN. -/
theorem getPrice_nullSpread_zero (env : SdkEnv) (m : SerumMarket)
    (h : m.getBidAskSpread env = Except.ok (none, none)) :
    m.getPrice env = Except.ok (JSNumber.val 0) := by
  unfold SerumMarket.getPrice
  rw [h]
  show Except.ok (jsAdd (jsDiv (jsSub (JSNumber.val 0) (JSNumber.val 0))
      (JSNumber.val 2)) (JSNumber.val 0)) = _
  norm_num [jsSub, jsDiv, jsAdd]

/-- Witness for the amended C3: the uninitialized client. -/
theorem getPrice_nullSpread_zero_witness :
    SerumMarket.getPrice baseEnv clientRaw = Except.ok (JSNumber.val 0) :=
  getPrice_nullSpread_zero baseEnv clientRaw rfl

/-- C4: whenever the spread query yields numeric bid b and ask a,
getPrice returns the arithmetic midpoint b + (a - b) / 2. -/
theorem getPrice_midpoint (env : SdkEnv) (m : SerumMarket) (b a : ℚ)
    (h : m.getBidAskSpread env =
         Except.ok (some (JSNumber.val b), some (JSNumber.val a))) :
    m.getPrice env = Except.ok (JSNumber.val (b + (a - b) / 2)) := by
  unfold SerumMarket.getPrice
  rw [h]
  show Except.ok (jsAdd (jsDiv (jsSub (JSNumber.val a) (JSNumber.val b))
      (JSNumber.val 2)) (JSNumber.val b)) = _
  simp only [jsSub, jsDiv, jsAdd]
  norm_num [add_comm]

/-- Witness for C4: bid 10 and ask 12 give price 11. -/
theorem getPrice_midpoint_witness :
    SerumMarket.getPrice envSpread clientInit =
      Except.ok (JSNumber.val 11) := by
  have h := getPrice_midpoint envSpread clientInit 10 12 rfl
  norm_num at h
  exact h

/-- C7: findByAssets returns null, without throwing, when the asset-key
lookup yields no matches; when it yields one or more matches and the
metadata load of the first match succeeds, it returns a MarketClient
whose market address is the first match's public key and whose market
handle has been resolved by initialization. -/
theorem findByAssets_firstMatch_or_null (env : SdkEnv) (c : Connection)
    (b q d : PublicKey) :
    (SerumMarket.getMarketByAssetKeys env c b q d = Except.ok [] →
      SerumMarket.findByAssets env c b q d = Except.ok none) ∧
    (∀ (first : MarketAccount) (rest : List MarketAccount)
        (mkt : MarketHandle),
      SerumMarket.getMarketByAssetKeys env c b q d =
        Except.ok (first :: rest) →
      env.loadMarket c first.publicKey d = Except.ok mkt →
      SerumMarket.findByAssets env c b q d =
        Except.ok (some
          { connection := c, marketAddress := first.publicKey,
            dexProgramKey := d, market := some mkt })) := by
  constructor
  · intro h
    unfold SerumMarket.findByAssets
    simp only [h, exceptBind_ok]
    rfl
  · intro first rest mkt h hl
    unfold SerumMarket.findByAssets
    simp only [h, exceptBind_ok]
    unfold SerumMarket.initMarket SerumMarket.getMarket SerumMarket.new
    simp only [hl, exceptBind_ok]
    rfl

/-- Witness for C7: a node with no matches gives null; a node with one
match gives the initialized client at that match's key. -/
theorem findByAssets_firstMatch_or_null_witness :
    SerumMarket.findByAssets baseEnv connA baseKey quoteKey progKey =
      Except.ok none ∧
    SerumMarket.findByAssets envOneMatch connA baseKey quoteKey progKey =
      Except.ok (some
        { connection := connA, marketAddress := { b58 := "FOUND" },
          dexProgramKey := progKey, market := some { id := 7 } }) :=
  ⟨(findByAssets_firstMatch_or_null baseEnv connA baseKey quoteKey
      progKey).1 rfl,
   (findByAssets_firstMatch_or_null envOneMatch connA baseKey quoteKey
      progKey).2
     { publicKey := { b58 := "FOUND" },
       accountInfo := { data := [], executable := false,
                        owner := { b58 := "OWN" }, lamports := 5 } }
     [] { id := 7 } rfl rfl⟩

/-- C8: on an initialized client, createPlaceOrderTx forwards owner,
payer, side, price, size, orderType and the four fields of the options
bundle unchanged to the external transaction builder, along with the
argument connection, and returns the builder's result unchanged. -/
theorem createPlaceOrderTx_forwards (env : SdkEnv) (m : SerumMarket)
    (mkt : MarketHandle) (c : Option Connection) (ow py : PublicKey)
    (sd : String) (pr sz : JSNumber) (ot : Option String)
    (cid : Option Nat) (ooak : Option PublicKey) (ooa : Option Account)
    (fdp : Option PublicKey) (hm : m.market = some mkt) :
    m.createPlaceOrderTx env
      { connection := c, owner := ow, payer := py, side := sd, price := pr,
        size := sz, orderType := ot,
        opts := some { clientId := cid, openOrdersAddressKey := ooak,
                       openOrdersAccount := ooa,
                       feeDiscountPubkey := fdp } } =
      Except.ok (env.makePlaceOrderTransaction mkt c
        { owner := ow, payer := py, side := sd, price := pr, size := sz,
          orderType := ot, clientId := cid, openOrdersAddressKey := ooak,
          openOrdersAccount := ooa, feeDiscountPubkey := fdp }) := by
  unfold SerumMarket.createPlaceOrderTx
  rw [hm]
  rfl

/-- Witness for C8: the fully populated argument object on the
initialized client in the benign environment. -/
theorem createPlaceOrderTx_forwards_witness :
    SerumMarket.createPlaceOrderTx baseEnv clientInit argsFull =
      Except.ok { id := 0 } :=
  createPlaceOrderTx_forwards baseEnv clientInit mkt0 (some connA) baseKey
    quoteKey "buy" (JSNumber.val 1) (JSNumber.val 2) (some "limit") (some 9)
    (some progKey) (some { id := 3 }) (some mktAddr) rfl

/-- Bound on one snapshot side: if level extraction never returns more
levels than requested, a successful side has at most depth levels. -/
theorem sideLevels_length (env : SdkEnv) (ob : Option OrderbookHandle)
    (depth : Nat) (l : List BookLevel)
    (hL2 : ∀ (b : OrderbookHandle) (n : Nat) (l2 : List (JSNumber × JSNumber)),
      env.getL2 b n = Except.ok l2 → l2.length ≤ n)
    (h : sideLevels env ob depth = Except.ok l) : l.length ≤ depth := by
  cases ob with
  | none =>
      simp only [sideLevels] at h
      cases h
      exact Nat.zero_le depth
  | some b =>
      simp only [sideLevels] at h
      cases hg : env.getL2 b depth with
      | error e => rw [hg] at h; simp [exceptBind_error] at h
      | ok l2 =>
          rw [hg] at h
          simp only [exceptBind_ok, Except.ok.injEq] at h
          subst h
          simpa using hL2 b depth l2 hg

/-- C9: if the underlying level extraction returns at most the requested
number of levels, getOrderbook(depth) has at most depth levels in its
bids and at most depth in its asks, for every client and depth. -/
theorem getOrderbook_depth_bound (env : SdkEnv) (m : SerumMarket)
    (depth : Nat)
    (hL2 : ∀ (b : OrderbookHandle) (n : Nat) (l2 : List (JSNumber × JSNumber)),
      env.getL2 b n = Except.ok l2 → l2.length ≤ n) :
    (m.getOrderbook env depth).bids.length ≤ depth ∧
    (m.getOrderbook env depth).asks.length ≤ depth := by
  cases hun : m.getOrderbookUncaught env depth with
  | error e =>
      have hres : m.getOrderbook env depth = { bids := [], asks := [] } := by
        unfold SerumMarket.getOrderbook
        rw [hun]
      rw [hres]
      exact ⟨Nat.zero_le depth, Nat.zero_le depth⟩
  | ok r =>
      have hres : m.getOrderbook env depth = r := by
        unfold SerumMarket.getOrderbook
        rw [hun]
      rw [hres]
      unfold SerumMarket.getOrderbookUncaught at hun
      cases hmm : m.market with
      | none =>
          rw [hmm] at hun
          simp [jsMember, exceptBind_error] at hun
      | some mkt =>
          rw [hmm] at hun
          simp only [jsMember, exceptBind_ok] at hun
          cases hb : env.loadBids mkt m.connection with
          | error e =>
              rw [hb] at hun
              simp [exceptBind_error] at hun
          | ok bob =>
              rw [hb] at hun
              simp only [exceptBind_ok] at hun
              cases ha : env.loadAsks mkt m.connection with
              | error e =>
                  rw [ha] at hun
                  simp [exceptBind_error] at hun
              | ok aob =>
                  rw [ha] at hun
                  simp only [exceptBind_ok] at hun
                  cases hsb : sideLevels env bob depth with
                  | error e =>
                      rw [hsb] at hun
                      simp [exceptBind_error] at hun
                  | ok bids =>
                      rw [hsb] at hun
                      simp only [exceptBind_ok] at hun
                      cases hsa : sideLevels env aob depth with
                      | error e =>
                          rw [hsa] at hun
                          simp [exceptBind_error] at hun
                      | ok asks =>
                          rw [hsa] at hun
                          simp only [exceptBind_ok,
                            Except.ok.injEq] at hun
                          subst hun
                          exact ⟨sideLevels_length env bob depth bids hL2 hsb,
                                 sideLevels_length env aob depth asks hL2 hsa⟩

/-- Witness for C9: the benign environment extracts no levels, so both
sides of the snapshot are within depth 20. -/
theorem getOrderbook_depth_bound_witness :
    (SerumMarket.getOrderbook baseEnv clientInit 20).bids.length ≤ 20 ∧
    (SerumMarket.getOrderbook baseEnv clientInit 20).asks.length ≤ 20 :=
  getOrderbook_depth_bound baseEnv clientInit 20
    (fun b n l2 h => by
      simp only [baseEnv] at h
      cases h
      exact Nat.zero_le n)

/-- C10: the connection forwarded to the transaction builder is the one
from the call's own argument object (undefined when the caller omits it),
never the instance connection — the result does not depend on the
instance connection — and an omitted options bundle is destructured into
four undefined fields with the call still succeeding. -/
theorem createPlaceOrderTx_args_connection (env : SdkEnv) (m : SerumMarket)
    (mkt : MarketHandle) (args : CreatePlaceOrderArgs)
    (hm : m.market = some mkt) (hopts : args.opts = none) :
    m.createPlaceOrderTx env args =
      Except.ok (env.makePlaceOrderTransaction mkt args.connection
        { owner := args.owner, payer := args.payer, side := args.side,
          price := args.price, size := args.size,
          orderType := args.orderType, clientId := none,
          openOrdersAddressKey := none, openOrdersAccount := none,
          feeDiscountPubkey := none }) ∧
    (∀ c2 : Connection,
      SerumMarket.createPlaceOrderTx env { m with connection := c2 } args =
        m.createPlaceOrderTx env args) := by
  constructor
  · unfold SerumMarket.createPlaceOrderTx
    rw [hopts, hm]
    rfl
  · intro c2
    unfold SerumMarket.createPlaceOrderTx
    rfl

/-- Witness for C10: the argument object that omits both the connection
and the options bundle, on the initialized client; changing the instance
connection leaves the result unchanged. -/
theorem createPlaceOrderTx_args_connection_witness :
    SerumMarket.createPlaceOrderTx baseEnv clientInit argsNoOpts =
      Except.ok { id := 0 } ∧
    SerumMarket.createPlaceOrderTx baseEnv
      { clientInit with connection := { id := 99, commitment := none } }
      argsNoOpts = Except.ok { id := 0 } := by
  have h := createPlaceOrderTx_args_connection baseEnv clientInit mkt0
    argsNoOpts rfl rfl
  exact ⟨h.1, (h.2 { id := 99, commitment := none }).trans h.1⟩
